import Mathlib

/-!
Shallow embedding of the `plot_layer` helper defined in the RAiDER tutorial
notebook (the only executable logic in this corpus).  The helper opens a GDAL
raster, computes a display extent from the geotransform, reads and masks each
band, dispatches color-scale options on the layer-type string, and renders one
subplot per band.  Numeric values are modelled as rationals; the matplotlib
figure is modelled as a pure data structure recording exactly the arguments the
code passes to the plotting calls; Python exceptions are modelled with
`Except`.
-/

namespace RaiderPlot

/-! ### POSIX path helpers (`os.path.dirname` / `os.path.basename`) -/

/-- Split a character list at its last `'/'`: returns `(before, after)`,
`none` when no slash occurs. -/
def splitAtLastSlash : List Char → Option (List Char × List Char)
  | [] => none
  | c :: rest =>
    match splitAtLastSlash rest with
    | some (pre, post) => some (c :: pre, post)
    | none => if c = '/' then some ([], rest) else none

/-- POSIX `os.path.basename`: everything after the last slash (the whole string when
no slash occurs). -/
def basename (p : String) : String :=
  match splitAtLastSlash p.data with
  | some (_, post) => String.mk post
  | none => p

/-- POSIX `os.path.dirname`: everything up to and including the last slash,
with trailing slashes stripped unless the head is all slashes. -/
def dirname (p : String) : String :=
  match splitAtLastSlash p.data with
  | none => ""
  | some (pre, _) =>
    let head := pre ++ ['/']
    if head.all (fun c => c = '/') then String.mk head
    else String.mk (head.reverse.dropWhile (fun c => c = '/')).reverse

/-- Python `str.startswith`. -/
def pyStartsWith (s pat : String) : Bool := pat.data.isPrefixOf s.data

/-- Python `str.endswith`. -/
def pyEndsWith (s pat : String) : Bool := pat.data.isSuffixOf s.data

/-! ### Data model: GDAL dataset as seen by `plot_layer` -/

/-- The six-coefficient affine geotransform returned by `ds.GetGeoTransform()`.
`plot_layer` reads only coefficients 0, 1, 3 and 5. -/
structure GeoTransform where
  c0 : ℚ
  c1 : ℚ
  c2 : ℚ
  c3 : ℚ
  c4 : ℚ
  c5 : ℚ
deriving DecidableEq

/-- One raster band: its 2-D array (`ReadAsArray`), the declared no-data
sentinel (`GetNoDataValue`, `none` when the format declares none), and whether
the no-data lookup raises for this band/format. -/
structure RasterBand where
  data : List (List ℚ)
  noData : Option ℚ
  noDataLookupRaises : Bool
deriving DecidableEq

/-- A GDAL dataset opened read-only: geotransform, raster size, bands. -/
structure Dataset where
  transform : GeoTransform
  rasterXSize : Nat
  rasterYSize : Nat
  bands : List RasterBand
deriving DecidableEq

/-- The colormaps that `plot_layer` can hand to `imshow`.  `greysRUnderBlack`
is `plt.cm.Greys_r` after `cmap.set_under('black')`; `greysName` is the plain
string `'Greys'` used by the water branch. -/
inductive Cmap where
  | greysRUnderBlack : Cmap
  | greysName : Cmap
  | coolwarm : Cmap
  | terrain : Cmap
deriving DecidableEq

/-- How the colorbar of one subplot is configured. -/
inductive ColorbarSpec where
  | fmt3dec : ColorbarSpec
  | ticks : Option ℚ → Option ℚ → ColorbarSpec
  | plain : ColorbarSpec
deriving DecidableEq

/-- Everything `imshow`/`colorbar`/`set_title` receive for one subplot. -/
structure Subplot where
  image : List (List (ℚ × Bool))
  cmap : Cmap
  vmin : Option ℚ
  vmax : Option ℚ
  extent : List ℚ
  colorbar : ColorbarSpec
  title : String
deriving DecidableEq

/-- The figure produced by a successful `plot_layer` call. -/
structure Figure where
  nrows : Nat
  ncols : Nat
  wspace : Option ℚ
  subplots : List Subplot
  ylabelIdx : Nat
  xlabelIdx : Nat
deriving DecidableEq

/-- The distinct Python exceptions a `plot_layer` call can surface. -/
inductive PlotError where
  | bandReadError : PlotError
  | unsupportedBandCount : PlotError
  | figureLayoutError : PlotError
  | titleIndexError : Nat → PlotError
deriving DecidableEq

instance : DecidableEq (Except PlotError Figure) := fun a b =>
  match a, b with
  | .ok x, .ok y =>
    if h : x = y then isTrue (congrArg Except.ok h)
    else isFalse (fun hc => h (Except.ok.inj hc))
  | .error x, .error y =>
    if h : x = y then isTrue (congrArg Except.error h)
    else isFalse (fun hc => h (Except.error.inj hc))
  | .ok _, .error _ => isFalse (fun hc => Except.noConfusion hc)
  | .error _, .ok _ => isFalse (fun hc => Except.noConfusion hc)

/-! ### Band reading and masking -/

/-- The literal `1e20` threshold from `arr > 1e20`. -/
def bigVal : ℚ := 100000000000000000000

/-- The diagnostic printed by the `except` branch of the no-data lookup. -/
def noDataNote : String := "Could not find a no-data value..."

/-- Elementwise `arr == NoData`.  When `GetNoDataValue` returns `None`, the
numpy comparison `arr == None` is elementwise `False`. -/
def pyEqNoData (noData : Option ℚ) (v : ℚ) : Bool :=
  match noData with
  | some s => decide (v = s)
  | none => false

/-- One pixel of `np.ma.masked_where((arr>1e20) | (arr==NoData), arr)`:
the value is kept, paired with its mask flag. -/
def maskPixelWithNoData (noData : Option ℚ) (v : ℚ) : ℚ × Bool :=
  (v, decide (bigVal < v) || pyEqNoData noData v)

/-- One pixel of the fallback `np.ma.masked_where(arr>1e20, arr)`. -/
def maskPixelThreshold (v : ℚ) : ℚ × Bool :=
  (v, decide (bigVal < v))

/-- Apply a pixel transform over the 2-D array. -/
def maskArr2 (f : ℚ → ℚ × Bool) (a : List (List ℚ)) : List (List (ℚ × Bool)) :=
  a.map (fun row => row.map f)

/-- The body of the band loop: `GetNoDataValue` inside `try`, masking with the
sentinel on success; on an exception, print the note and mask on the threshold
alone.  Returns the masked array and the notes printed. -/
def readBand (b : RasterBand) : List (List (ℚ × Bool)) × List String :=
  if b.noDataLookupRaises then
    (maskArr2 maskPixelThreshold b.data, [noDataNote])
  else
    (maskArr2 (maskPixelWithNoData b.noData) b.data, [])

/-- The loop `for band in range(n_bands)`: reads bands `1 .. n_bands` in
order.  `GetRasterBand` past the dataset's band count raises (GDAL exceptions
are enabled by `gdal.UseExceptions()` in the notebook), modelled as
`bandReadError`.  Notes printed before a failure are kept. -/
def readBands (bands : List RasterBand) (n : Nat) :
    Except PlotError (List (List (List (ℚ × Bool)))) × List String :=
  match n with
  | 0 => (.ok [], [])
  | k + 1 =>
    match bands with
    | [] => (.error .bandReadError, [])
    | b :: rest =>
      let (arr, notes) := readBand b
      match readBands rest k with
      | (.error e, ns) => (.error e, notes ++ ns)
      | (.ok arrs, ns) => (.ok (arr :: arrs), notes ++ ns)

/-! ### Extent, argument resolution, layer-type dispatch -/

/-- The assignment `extent = [trans[0], trans[0] + ds.RasterXSize * trans[1],
trans[3] + ds.RasterYSize * trans[5], trans[3]]`. -/
def computeExtent (trans : GeoTransform) (rasterXSize rasterYSize : Nat) : List ℚ :=
  [trans.c0, trans.c0 + (rasterXSize : ℚ) * trans.c1,
   trans.c3 + (rasterYSize : ℚ) * trans.c5, trans.c3]

/-- Python `if not lay_type: lay_type = os.path.dirname(path_layer)` — a missing or
empty (falsy) label is replaced by the full dirname of the path. -/
def resolveLayType (lay_type : Option String) (path_layer : String) : String :=
  match lay_type with
  | none => dirname path_layer
  | some s => if s = "" then dirname path_layer else s

/-- Python `if not n_bands: n_bands = ds.RasterCount` — a missing or zero (falsy)
band count is replaced by the dataset's band count. -/
def resolveNBands (n_bands : Option Nat) (ds : Dataset) : Nat :=
  match n_bands with
  | none => ds.bands.length
  | some n => if n = 0 then ds.bands.length else n

/-- The result of the layer-type dispatch chain: bounds, colormap, title list
and subplot spacing. -/
structure LayerStyle where
  vmin : Option ℚ
  vmax : Option ℚ
  cmap : Cmap
  title : List String
  wspace : Option ℚ
deriving DecidableEq

/-- The `if/elif` chain on `lay_type`.  `title` and `cmap` enter with their
current values; branches that do not assign them leave them unchanged.  Only
the `ENU` branch replaces the title list and sets `wspace=0.5`. -/
def applyLayerStyle (lay_type : String) (title : List String) (cmap : Cmap) : LayerStyle :=
  if pyEndsWith lay_type "amplitude" then ⟨none, some 2000, cmap, title, none⟩
  else if pyEndsWith lay_type "coherence" then ⟨some 0, some 1, cmap, title, none⟩
  else if pyEndsWith lay_type "incidenceAngle" then ⟨none, none, cmap, title, none⟩
  else if pyStartsWith lay_type "water" then ⟨some 0, some 1, Cmap.greysName, title, none⟩
  else if pyStartsWith lay_type "defo" then ⟨none, none, Cmap.coolwarm, title, none⟩
  else if pyStartsWith lay_type "terr" || pyStartsWith lay_type "topo" then
    ⟨none, none, Cmap.terrain, title, none⟩
  else if lay_type = "ENU" then
    ⟨none, none, cmap, ["East", "North", "Up"], some (1 / 2)⟩
  else ⟨none, none, Cmap.coolwarm, title, none⟩

/-- The colorbar configuration chosen inside the rendering loop. -/
def colorbarFor (lay_type : String) (vmin vmax : Option ℚ) : ColorbarSpec :=
  if lay_type = "ENU" then .fmt3dec
  else if pyStartsWith lay_type "water" then .ticks vmin vmax
  else .plain

/-- The loop `for i, ax in enumerate(axe)`: subplot `i` shows array `i`, gets
its colorbar, then `ax.set_title(title[i])` — an out-of-range index there
raises `IndexError`, modelled as `titleIndexError i`. -/
def renderSubplots (lay_type : String) (extent : List ℚ) (vmin vmax : Option ℚ)
    (cm : Cmap) (titles : List String) :
    List (List (List (ℚ × Bool))) → Nat → Except PlotError (List Subplot)
  | [], _ => .ok []
  | arr :: rest, i =>
    match titles[i]? with
    | none => .error (.titleIndexError i)
    | some t =>
      match renderSubplots lay_type extent vmin vmax cm titles rest (i + 1) with
      | .error e => .error e
      | .ok subs =>
        .ok (⟨arr, cm, vmin, vmax, extent, colorbarFor lay_type vmin vmax, t⟩ :: subs)

/-- Everything after the band loop: the band-count check (`raise` at 4 or
more), figure creation (`plt.subplots` rejects a zero column count), the
forced grayscale default for `cmap`, the dispatch chain, the rendering loop,
and the axis labels (`axe[0]`, `axe[n_bands // 2]`). -/
def buildFigure (lay_type : String) (title : List String) (extent : List ℚ)
    (n_bands : Nat) (arrs : List (List (List (ℚ × Bool)))) (cmap : Option Cmap)
    (notes : List String) : Except PlotError Figure × List String :=
  if n_bands < 4 then
    if n_bands = 0 then (.error .figureLayoutError, notes)
    else
      match renderSubplots lay_type extent
          (applyLayerStyle lay_type title Cmap.greysRUnderBlack).vmin
          (applyLayerStyle lay_type title Cmap.greysRUnderBlack).vmax
          (applyLayerStyle lay_type title Cmap.greysRUnderBlack).cmap
          (applyLayerStyle lay_type title Cmap.greysRUnderBlack).title arrs 0 with
      | .error e => (.error e, notes)
      | .ok subs =>
        (.ok ⟨1, n_bands,
          (applyLayerStyle lay_type title Cmap.greysRUnderBlack).wspace,
          subs, 0, n_bands / 2⟩, notes)
  else (.error .unsupportedBandCount, notes)

/-- The notebook's `plot_layer(path_layer, lay_type=None, cmap=None,
n_bands=None)`.  The opened dataset is passed in place of `gdal.Open`; the
result is the figure or the exception raised, paired with the diagnostics
printed.  The `cmap` argument is threaded through but line
`cmap = plt.cm.Greys_r` overwrites it before any use. -/
def plot_layer (ds : Dataset) (path_layer : String) (lay_type : Option String)
    (cmap : Option Cmap) (n_bands : Option Nat) :
    Except PlotError Figure × List String :=
  let lay_type := resolveLayType lay_type path_layer
  let title := [basename lay_type]
  let extent := computeExtent ds.transform ds.rasterXSize ds.rasterYSize
  let n_bands := resolveNBands n_bands ds
  match readBands ds.bands n_bands with
  | (.error e, notes) => (.error e, notes)
  | (.ok arrs, notes) => buildFigure lay_type title extent n_bands arrs cmap notes

/-- The figure of a call's result, `none` when the call raised. -/
def figOut (r : Except PlotError Figure × List String) : Option Figure :=
  r.fst.toOption

/-! ### Sample datasets used to instantiate the theorems -/

/-- A one-pixel band holding `0`, no sentinel declared, lookup succeeds. -/
def bandZero : RasterBand := ⟨[[0]], none, false⟩

/-- A geotransform `(2, 3, 0, 7, 0, -1)` as in the extent claim's premise. -/
def transTest : GeoTransform := ⟨2, 3, 0, 7, 0, -1⟩

/-- A 4x5 single-band dataset over `transTest`. -/
def dsOne : Dataset := ⟨transTest, 4, 5, [bandZero]⟩

/-- A 1x1 two-band dataset. -/
def dsTwo : Dataset := ⟨⟨0, 0, 0, 0, 0, 0⟩, 1, 1, [bandZero, bandZero]⟩

/-- A 1x1 three-band dataset. -/
def dsThree : Dataset := ⟨⟨0, 0, 0, 0, 0, 0⟩, 1, 1, [bandZero, bandZero, bandZero]⟩

/-- A 1x1 four-band dataset. -/
def dsFour : Dataset :=
  ⟨⟨0, 0, 0, 0, 0, 0⟩, 1, 1, [bandZero, bandZero, bandZero, bandZero]⟩

/-! ### Helper lemmas -/

/-- The sentinel mask of one pixel, in propositional form: value kept, flag
set exactly when the value exceeds `1e20` or equals the declared sentinel. -/
theorem maskPixelWithNoData_eq (noData : Option ℚ) (v : ℚ) :
    maskPixelWithNoData noData v = (v, decide (bigVal < v ∨ noData = some v)) := by
  cases noData with
  | none => simp [maskPixelWithNoData, pyEqNoData]
  | some s =>
    by_cases hv : bigVal < v <;> by_cases he : v = s <;>
      simp [maskPixelWithNoData, pyEqNoData, hv, he, eq_comm]

/-- Reading `n` bands succeeds when the dataset has at least `n`, and returns
one masked array per band. -/
theorem readBands_ok (bs : List RasterBand) (n : Nat) (h : n ≤ bs.length) :
    ∃ arrs ns, readBands bs n = (.ok arrs, ns) ∧ arrs.length = n := by
  induction n generalizing bs with
  | zero => exact ⟨[], [], by rw [readBands], rfl⟩
  | succ k ih =>
    cases bs with
    | nil => simp at h
    | cons b rest =>
      obtain ⟨arrs, ns, heq, hlen⟩ := ih rest (Nat.le_of_succ_le_succ h)
      refine ⟨(readBand b).fst :: arrs, (readBand b).snd ++ ns, ?_, by simp [hlen]⟩
      simp [readBands, heq]

/-- Requesting more bands than the dataset holds raises at `GetRasterBand`. -/
theorem readBands_err (bs : List RasterBand) (n : Nat) (h : bs.length < n) :
    ∃ ns, readBands bs n = (.error .bandReadError, ns) := by
  induction bs generalizing n with
  | nil =>
    cases n with
    | zero => simp at h
    | succ k => exact ⟨[], rfl⟩
  | cons b rest ih =>
    cases n with
    | zero => simp at h
    | succ k =>
      obtain ⟨ns, heq⟩ := ih k (Nat.lt_of_succ_lt_succ h)
      exact ⟨(readBand b).snd ++ ns, by simp [readBands, heq]⟩

/-- Every dispatch branch except `ENU` leaves the title list unchanged. -/
theorem applyLayerStyle_title (lay_type : String) (title : List String) (cm : Cmap)
    (h : lay_type ≠ "ENU") :
    (applyLayerStyle lay_type title cm).title = title := by
  unfold applyLayerStyle
  split_ifs <;> rfl

/-- The `ENU` branch of the dispatch chain. -/
theorem applyLayerStyle_ENU (title : List String) (cm : Cmap) :
    applyLayerStyle "ENU" title cm =
      ⟨none, none, cm, ["East", "North", "Up"], some (1 / 2)⟩ := by
  rfl

/-- Rendering succeeds when the title list is long enough, producing one
subplot per array, titled by the corresponding title entries. -/
theorem renderSubplots_ok (lay_type : String) (extent : List ℚ)
    (vmin vmax : Option ℚ) (cm : Cmap) (titles : List String)
    (arrs : List (List (List (ℚ × Bool)))) (i : Nat)
    (h : i + arrs.length ≤ titles.length) :
    ∃ subs, renderSubplots lay_type extent vmin vmax cm titles arrs i = .ok subs ∧
      subs.length = arrs.length ∧
      subs.map Subplot.title = (titles.drop i).take arrs.length ∧
      ∀ sp ∈ subs, sp.extent = extent := by
  induction arrs generalizing i with
  | nil => exact ⟨[], rfl, rfl, by simp, by simp⟩
  | cons arr rest ih =>
    have hi : i < titles.length := by
      simp only [List.length_cons] at h
      omega
    have hget := List.getElem?_eq_getElem hi
    obtain ⟨subs, heq, hlen, htit, hext⟩ := ih (i + 1) (by simp only [List.length_cons] at h; omega)
    refine ⟨⟨arr, cm, vmin, vmax, extent, colorbarFor lay_type vmin vmax,
      titles[i]⟩ :: subs, ?_, by simp [hlen], ?_, ?_⟩
    · rw [renderSubplots, hget, heq]
    · have hdrop := List.drop_eq_getElem_cons hi
      simp only [List.map_cons, List.length_cons, hdrop, List.take_succ_cons, htit]
    · intro sp hsp
      rcases List.mem_cons.mp hsp with h1 | h2
      · rw [h1]
      · exact hext sp h2

/-- With a single title, rendering two or more arrays raises `IndexError` at
the second subplot. -/
theorem renderSubplots_err_two (lay_type : String) (extent : List ℚ)
    (vmin vmax : Option ℚ) (cm : Cmap) (t : String)
    (a b : List (List (ℚ × Bool))) (rest : List (List (List (ℚ × Bool)))) :
    renderSubplots lay_type extent vmin vmax cm [t] (a :: b :: rest) 0 =
      .error (.titleIndexError 1) := by
  rfl

/-- Unfolding of `plot_layer` to its band-reading case split. -/
theorem plot_layer_def (ds : Dataset) (p : String) (la : Option String)
    (c : Option Cmap) (na : Option Nat) :
    plot_layer ds p la c na =
      match readBands ds.bands (resolveNBands na ds) with
      | (.error e, notes) => (.error e, notes)
      | (.ok arrs, notes) =>
          buildFigure (resolveLayType la p) [basename (resolveLayType la p)]
            (computeExtent ds.transform ds.rasterXSize ds.rasterYSize)
            (resolveNBands na ds) arrs c notes := rfl

/-- When every requested band is readable, the band count is between 1 and 3,
and the dispatched title list is long enough, the call returns a figure with
one row, one column per band, one subplot per band, titles taken from the
dispatched title list, and the computed extent on every subplot. -/
theorem plot_layer_ok (ds : Dataset) (p : String) (la : Option String)
    (c : Option Cmap) (na : Option Nat)
    (h1 : 1 ≤ resolveNBands na ds) (h4 : resolveNBands na ds < 4)
    (hlen : resolveNBands na ds ≤ ds.bands.length)
    (htl : resolveNBands na ds ≤
      (applyLayerStyle (resolveLayType la p) [basename (resolveLayType la p)]
        Cmap.greysRUnderBlack).title.length) :
    ∃ fig ns, plot_layer ds p la c na = (.ok fig, ns) ∧
      fig.nrows = 1 ∧ fig.ncols = resolveNBands na ds ∧
      fig.subplots.length = resolveNBands na ds ∧
      fig.subplots.map Subplot.title =
        ((applyLayerStyle (resolveLayType la p) [basename (resolveLayType la p)]
          Cmap.greysRUnderBlack).title).take (resolveNBands na ds) ∧
      ∀ sp ∈ fig.subplots,
        sp.extent = computeExtent ds.transform ds.rasterXSize ds.rasterYSize := by
  obtain ⟨arrs, ns, heq, hlenA⟩ := readBands_ok ds.bands (resolveNBands na ds) hlen
  have h0 : resolveNBands na ds ≠ 0 := by omega
  obtain ⟨subs, hr, hslen, htit, hext⟩ :=
    renderSubplots_ok (resolveLayType la p)
      (computeExtent ds.transform ds.rasterXSize ds.rasterYSize)
      (applyLayerStyle (resolveLayType la p) [basename (resolveLayType la p)]
        Cmap.greysRUnderBlack).vmin
      (applyLayerStyle (resolveLayType la p) [basename (resolveLayType la p)]
        Cmap.greysRUnderBlack).vmax
      (applyLayerStyle (resolveLayType la p) [basename (resolveLayType la p)]
        Cmap.greysRUnderBlack).cmap
      (applyLayerStyle (resolveLayType la p) [basename (resolveLayType la p)]
        Cmap.greysRUnderBlack).title
      arrs 0 (by omega)
  refine ⟨⟨1, resolveNBands na ds,
    (applyLayerStyle (resolveLayType la p) [basename (resolveLayType la p)]
      Cmap.greysRUnderBlack).wspace, subs, 0, resolveNBands na ds / 2⟩, ns, ?_,
    rfl, rfl, by simpa [hlenA] using hslen, by simpa [hlenA] using htit,
    by simpa using hext⟩
  rw [plot_layer_def, heq]
  simp only [buildFigure]
  rw [if_pos h4, if_neg h0, hr]

/-! ### The claims -/

/-- Claim C2, counterexample: a two-band dataset called with an explicit band
count of 4 has resolved band count 4, yet the call fails with the band-read
error raised by `GetRasterBand(3)`, not with the unsupported-band-count
error. -/
theorem unsupported_raise_cex :
    (plot_layer dsTwo "p" (some "defo") none (some 4)).fst =
      .error .bandReadError ∧
    PlotError.bandReadError ≠ PlotError.unsupportedBandCount :=
  ⟨rfl, by decide⟩

/-- Claim C2, amended: whenever the resolved band count is 4 or more the call
fails and no figure is produced; the error is the unsupported-band-count
error exactly when the resolved count does not exceed the dataset's actual
band count (in particular whenever the band-count argument is omitted), and a
band-read error otherwise. -/
theorem unsupported_band_count_fails (ds : Dataset) (p : String)
    (la : Option String) (c : Option Cmap) (na : Option Nat)
    (h4 : 4 ≤ resolveNBands na ds) :
    (plot_layer ds p la c na).fst.isOk = false ∧
    (resolveNBands na ds ≤ ds.bands.length →
      (plot_layer ds p la c na).fst = .error .unsupportedBandCount) ∧
    (ds.bands.length < resolveNBands na ds →
      (plot_layer ds p la c na).fst = .error .bandReadError) := by
  by_cases hle : resolveNBands na ds ≤ ds.bands.length
  · obtain ⟨arrs, ns, heq, -⟩ := readBands_ok ds.bands _ hle
    have hplot : plot_layer ds p la c na = (.error .unsupportedBandCount, ns) := by
      rw [plot_layer_def, heq]
      simp only [buildFigure]
      rw [if_neg (by omega)]
    exact ⟨by rw [hplot]; rfl, fun _ => by rw [hplot],
      fun hlt => absurd hlt (by omega)⟩
  · obtain ⟨ns, heq⟩ := readBands_err ds.bands (resolveNBands na ds) (by omega)
    have hplot : plot_layer ds p la c na = (.error .bandReadError, ns) := by
      rw [plot_layer_def, heq]
    exact ⟨by rw [hplot]; rfl, fun hle2 => absurd hle2 hle, fun _ => by rw [hplot]⟩

/-- Claim C2, witness: a four-band dataset with the band-count argument
omitted fails with the unsupported-band-count error. -/
theorem unsupported_band_count_fails_witness :
    (plot_layer dsFour "p" none none none).fst.isOk = false ∧
    (resolveNBands none dsFour ≤ dsFour.bands.length →
      (plot_layer dsFour "p" none none none).fst =
        .error .unsupportedBandCount) ∧
    (dsFour.bands.length < resolveNBands none dsFour →
      (plot_layer dsFour "p" none none none).fst = .error .bandReadError) :=
  unsupported_band_count_fails dsFour "p" none none none (by decide)

/-- Claim C8: for a resolved band count of 2 or 3 and a resolved layer type
other than exactly "ENU", the dispatched title list has length 1, and the
call never completes: when the bands are readable it raises `IndexError` at
`title[1]` while titling the second subplot. -/
theorem multiband_title_index_fails (ds : Dataset) (p : String)
    (la : Option String) (c : Option Cmap) (na : Option Nat)
    (h2 : 2 ≤ resolveNBands na ds) (h3 : resolveNBands na ds ≤ 3)
    (hENU : resolveLayType la p ≠ "ENU") :
    (applyLayerStyle (resolveLayType la p) [basename (resolveLayType la p)]
      Cmap.greysRUnderBlack).title.length = 1 ∧
    (plot_layer ds p la c na).fst.isOk = false ∧
    (resolveNBands na ds ≤ ds.bands.length →
      (plot_layer ds p la c na).fst = .error (.titleIndexError 1)) := by
  have htl := applyLayerStyle_title (resolveLayType la p)
    [basename (resolveLayType la p)] Cmap.greysRUnderBlack hENU
  by_cases hle : resolveNBands na ds ≤ ds.bands.length
  · obtain ⟨arrs, ns, heq, hlenA⟩ := readBands_ok ds.bands _ hle
    obtain ⟨x, y, r, harr⟩ : ∃ x y r, arrs = x :: y :: r := by
      cases arrs with
      | nil => exfalso; simp at hlenA; omega
      | cons x t =>
        cases t with
        | nil => exfalso; simp at hlenA; omega
        | cons y r => exact ⟨x, y, r, rfl⟩
    have hplot : plot_layer ds p la c na = (.error (.titleIndexError 1), ns) := by
      rw [plot_layer_def, heq]
      simp only [buildFigure]
      rw [if_pos (by omega), if_neg (by omega), harr, htl, renderSubplots_err_two]
    exact ⟨by simp [htl], by rw [hplot]; rfl, fun _ => by rw [hplot]⟩
  · obtain ⟨ns, heq⟩ := readBands_err ds.bands (resolveNBands na ds) (by omega)
    have hplot : plot_layer ds p la c na = (.error .bandReadError, ns) := by
      rw [plot_layer_def, heq]
    exact ⟨by simp [htl], by rw [hplot]; rfl, fun hle2 => absurd hle2 hle⟩

/-- Claim C8, witness: a three-band dataset with layer type "topo" fails with
`IndexError` at `title[1]`. -/
theorem multiband_title_index_fails_witness :
    (applyLayerStyle (resolveLayType (some "topo") "p2")
      [basename (resolveLayType (some "topo") "p2")]
      Cmap.greysRUnderBlack).title.length = 1 ∧
    (plot_layer dsThree "p2" (some "topo") none none).fst.isOk = false ∧
    (resolveNBands none dsThree ≤ dsThree.bands.length →
      (plot_layer dsThree "p2" (some "topo") none none).fst =
        .error (.titleIndexError 1)) :=
  multiband_title_index_fails dsThree "p2" (some "topo") none none
    (by decide) (by decide) (by decide)

/-- Claim C3, counterexample: a two-band raster with layer type "defo" (band
count 2, within 1..3) does not complete — it raises `IndexError` at
`title[1]`. -/
theorem one_row_completion_cex :
    dsTwo.bands.length = 2 ∧
    (plot_layer dsTwo "q" (some "defo") none none).fst =
      .error (.titleIndexError 1) ∧
    (plot_layer dsTwo "q" (some "defo") none none).fst.isOk = false :=
  ⟨rfl, rfl, rfl⟩

/-- Claim C3, amended: for a resolved band count of 1, 2 or 3 (within the
dataset's bands), the call completes with one row and that many subplots
provided the band count is 1 or the resolved layer type is exactly "ENU";
multi-band calls with any other layer type fail while titling. -/
theorem one_row_layout (ds : Dataset) (p : String) (la : Option String)
    (c : Option Cmap) (na : Option Nat)
    (h1 : 1 ≤ resolveNBands na ds) (h3 : resolveNBands na ds ≤ 3)
    (hlen : resolveNBands na ds ≤ ds.bands.length)
    (hok : resolveNBands na ds = 1 ∨ resolveLayType la p = "ENU") :
    (figOut (plot_layer ds p la c na)).map Figure.nrows = some 1 ∧
    (figOut (plot_layer ds p la c na)).map Figure.ncols =
      some (resolveNBands na ds) ∧
    (figOut (plot_layer ds p la c na)).map (fun f => f.subplots.length) =
      some (resolveNBands na ds) := by
  have htl : resolveNBands na ds ≤
      (applyLayerStyle (resolveLayType la p) [basename (resolveLayType la p)]
        Cmap.greysRUnderBlack).title.length := by
    rcases hok with h | h
    · rw [h]
      by_cases hE : resolveLayType la p = "ENU"
      · rw [hE, applyLayerStyle_ENU]; simp
      · rw [applyLayerStyle_title _ _ _ hE]; simp
    · rw [h, applyLayerStyle_ENU]
      simpa using h3
  obtain ⟨fig, ns, hplot, hn, hc, hs, -, -⟩ :=
    plot_layer_ok ds p la c na h1 (by omega) hlen htl
  refine ⟨?_, ?_, ?_⟩ <;> simp [figOut, hplot, Except.toOption, hn, hc, hs]

/-- Claim C3, witness: a single-band "defo" call completes with one row and
one subplot. -/
theorem one_row_layout_witness :
    (figOut (plot_layer dsOne "w" (some "defo") none none)).map Figure.nrows =
      some 1 ∧
    (figOut (plot_layer dsOne "w" (some "defo") none none)).map Figure.ncols =
      some (resolveNBands none dsOne) ∧
    (figOut (plot_layer dsOne "w" (some "defo") none none)).map
      (fun f => f.subplots.length) = some (resolveNBands none dsOne) :=
  one_row_layout dsOne "w" (some "defo") none none (by decide) (by decide)
    (by decide) (Or.inl (by decide))

/-- Claim C5, counterexample: a call with layer type exactly "ENU" on a
single-band raster succeeds, so the band count need not be 3. -/
theorem enu_band_count_cex :
    dsOne.bands.length = 1 ∧
    (plot_layer dsOne "p" (some "ENU") none none).fst.isOk = true :=
  ⟨rfl, rfl⟩

/-- Claim C5, amended: with layer type exactly "ENU" the dispatched title
list is exactly ["East", "North", "Up"]; any band count from 1 to 3 (within
the dataset's bands) succeeds, subplot `i` taking the `i`-th of those
titles — the band count is not forced to be 3. -/
theorem enu_titles (ds : Dataset) (p : String) (la : Option String)
    (c : Option Cmap) (na : Option Nat)
    (hENU : resolveLayType la p = "ENU")
    (h1 : 1 ≤ resolveNBands na ds) (h3 : resolveNBands na ds ≤ 3)
    (hlen : resolveNBands na ds ≤ ds.bands.length) :
    (applyLayerStyle (resolveLayType la p) [basename (resolveLayType la p)]
      Cmap.greysRUnderBlack).title = ["East", "North", "Up"] ∧
    (figOut (plot_layer ds p la c na)).map (fun f => f.subplots.map Subplot.title)
      = some ((["East", "North", "Up"]).take (resolveNBands na ds)) ∧
    (figOut (plot_layer ds p la c na)).map Figure.ncols =
      some (resolveNBands na ds) := by
  have htitle : (applyLayerStyle (resolveLayType la p)
      [basename (resolveLayType la p)] Cmap.greysRUnderBlack).title =
      ["East", "North", "Up"] := by
    rw [hENU, applyLayerStyle_ENU]
  have htl : resolveNBands na ds ≤
      (applyLayerStyle (resolveLayType la p) [basename (resolveLayType la p)]
        Cmap.greysRUnderBlack).title.length := by
    rw [htitle]; simpa using h3
  obtain ⟨fig, ns, hplot, hn, hc, hs, htit, -⟩ :=
    plot_layer_ok ds p la c na h1 (by omega) hlen htl
  rw [htitle] at htit
  exact ⟨htitle, by simp [figOut, hplot, Except.toOption, htit],
    by simp [figOut, hplot, Except.toOption, hc]⟩

/-- Claim C5, witness: a two-band "ENU" call succeeds with titles
["East", "North"]. -/
theorem enu_titles_witness :
    (applyLayerStyle (resolveLayType (some "ENU") "p")
      [basename (resolveLayType (some "ENU") "p")]
      Cmap.greysRUnderBlack).title = ["East", "North", "Up"] ∧
    (figOut (plot_layer dsTwo "p" (some "ENU") none none)).map
      (fun f => f.subplots.map Subplot.title)
      = some ((["East", "North", "Up"]).take (resolveNBands none dsTwo)) ∧
    (figOut (plot_layer dsTwo "p" (some "ENU") none none)).map Figure.ncols =
      some (resolveNBands none dsTwo) :=
  enu_titles dsTwo "p" (some "ENU") none none (by decide) (by decide)
    (by decide) (by decide)

/-- Claim C1, counterexample: a pixel holding -2e20 is above the 1e20
threshold in magnitude and differs from the declared sentinel 0, yet the code
leaves it unmasked — the comparison `arr > 1e20` is signed, not a magnitude
test. -/
theorem mask_magnitude_cex :
    (readBand ⟨[[(-200000000000000000000 : ℚ)]], some 0, false⟩).fst =
      [[((-200000000000000000000 : ℚ), false)]] ∧
    bigVal < |(-200000000000000000000 : ℚ)| ∧
    (-200000000000000000000 : ℚ) ≠ 0 := by
  refine ⟨by decide, by decide, by decide⟩

/-- Claim C1, amended: for a band whose no-data lookup succeeds, every pixel
value is passed through unchanged and its mask flag is set exactly when the
value is strictly greater than 1e20 (a signed comparison, not a magnitude
test) or equal to the declared sentinel. -/
theorem mask_rule_signed (b : RasterBand) (row : List ℚ) (v : ℚ) (i j : Nat)
    (h : b.noDataLookupRaises = false)
    (hi : b.data[i]? = some row) (hj : row[j]? = some v) :
    ∃ mrow, (readBand b).fst[i]? = some mrow ∧
      mrow[j]? = some (v, decide (bigVal < v ∨ b.noData = some v)) := by
  refine ⟨row.map (maskPixelWithNoData b.noData), ?_, ?_⟩
  · simp [readBand, h, maskArr2, hi]
  · simp [hj, maskPixelWithNoData_eq]

/-- Claim C1, witness: a pixel holding 5 with declared sentinel 3 is passed
through with its mask flag computed from the signed rule. -/
theorem mask_rule_signed_witness :
    ∃ mrow, (readBand ⟨[[(5 : ℚ)]], some 3, false⟩).fst[0]? = some mrow ∧
      mrow[0]? = some ((5 : ℚ),
        decide (bigVal < 5 ∨ (some 3 : Option ℚ) = some 5)) :=
  mask_rule_signed ⟨[[(5 : ℚ)]], some 3, false⟩ [(5 : ℚ)] 5 0 0 rfl rfl rfl

/-- Claim C7: when the no-data lookup raises for a band, the band loop
recovers locally: it prints the diagnostic note, masks on the 1e20 threshold
alone — exactly the mask used when the sentinel is absent — and returns
normally instead of propagating the exception. -/
theorem nodata_lookup_fallback (b : RasterBand) (row : List ℚ) (v : ℚ)
    (i j : Nat) (h : b.noDataLookupRaises = true)
    (hi : b.data[i]? = some row) (hj : row[j]? = some v) :
    (readBand b).snd = [noDataNote] ∧
    (readBand b).fst = (readBand ⟨b.data, none, false⟩).fst ∧
    ∃ mrow, (readBand b).fst[i]? = some mrow ∧
      mrow[j]? = some (v, decide (bigVal < v)) := by
  refine ⟨by simp [readBand, h], ?_, ?_⟩
  · simp [readBand, h, maskArr2, maskPixelThreshold, maskPixelWithNoData,
      pyEqNoData]
  · refine ⟨row.map maskPixelThreshold, ?_, ?_⟩
    · simp [readBand, h, maskArr2, hi]
    · simp [hj, maskPixelThreshold]

/-- Claim C7, witness: a band whose lookup raises yields the note and the
threshold-only mask. -/
theorem nodata_lookup_fallback_witness :
    (readBand ⟨[[(7 : ℚ)]], some 1, true⟩).snd = [noDataNote] ∧
    (readBand ⟨[[(7 : ℚ)]], some 1, true⟩).fst =
      (readBand ⟨[[(7 : ℚ)]], none, false⟩).fst ∧
    ∃ mrow, (readBand ⟨[[(7 : ℚ)]], some 1, true⟩).fst[0]? = some mrow ∧
      mrow[0]? = some ((7 : ℚ), decide (bigVal < 7)) :=
  nodata_lookup_fallback ⟨[[(7 : ℚ)]], some 1, true⟩ [(7 : ℚ)] 7 0 0
    rfl rfl rfl

/-- Every subplot produced by a successful rendering loop carries the extent
the loop was given. -/
theorem renderSubplots_extent (lay_type : String) (extent : List ℚ)
    (vmin vmax : Option ℚ) (cm : Cmap) (titles : List String)
    (arrs : List (List (List (ℚ × Bool)))) :
    ∀ i subs, renderSubplots lay_type extent vmin vmax cm titles arrs i = .ok subs →
      ∀ sp ∈ subs, sp.extent = extent := by
  induction arrs with
  | nil =>
    intro i subs h sp hsp
    rw [renderSubplots] at h
    cases h
    simp at hsp
  | cons arr rest ih =>
    intro i subs h sp hsp
    cases hti : titles[i]? with
    | none => rw [renderSubplots, hti] at h; exact Except.noConfusion h
    | some t =>
      rw [renderSubplots, hti] at h
      cases hrr : renderSubplots lay_type extent vmin vmax cm titles rest (i + 1) with
      | error e2 => rw [hrr] at h; exact Except.noConfusion h
      | ok subs2 =>
        rw [hrr] at h
        have hsubs := Except.ok.inj h
        rw [← hsubs] at hsp
        rcases List.mem_cons.mp hsp with h1 | h2
        · rw [h1]
        · exact ih (i + 1) subs2 hrr sp h2

/-- Claim C4: for any successful call on a raster with affine transform
`(x0, dx, 0, y0, 0, dy)` and size W by H, every subplot's display extent is
`[x0, x0 + W*dx, y0 + H*dy, y0]`. -/
theorem extent_formula (ds : Dataset) (p : String) (la : Option String)
    (c : Option Cmap) (na : Option Nat) (fig : Figure) (ns : List String)
    (sp : Subplot)
    (hc2 : ds.transform.c2 = 0) (hc4 : ds.transform.c4 = 0)
    (hres : plot_layer ds p la c na = (.ok fig, ns))
    (hsp : sp ∈ fig.subplots) :
    sp.extent = [ds.transform.c0,
      ds.transform.c0 + (ds.rasterXSize : ℚ) * ds.transform.c1,
      ds.transform.c3 + (ds.rasterYSize : ℚ) * ds.transform.c5,
      ds.transform.c3] := by
  rw [plot_layer_def] at hres
  rcases hread : readBands ds.bands (resolveNBands na ds) with ⟨res, notes⟩
  rw [hread] at hres
  cases res with
  | error e => simp at hres
  | ok arrs =>
    simp only [buildFigure] at hres
    by_cases hlt : resolveNBands na ds < 4
    · rw [if_pos hlt] at hres
      by_cases h0 : resolveNBands na ds = 0
      · rw [if_pos h0] at hres
        simp at hres
      · rw [if_neg h0] at hres
        cases hr : renderSubplots (resolveLayType la p)
            (computeExtent ds.transform ds.rasterXSize ds.rasterYSize)
            (applyLayerStyle (resolveLayType la p)
              [basename (resolveLayType la p)] Cmap.greysRUnderBlack).vmin
            (applyLayerStyle (resolveLayType la p)
              [basename (resolveLayType la p)] Cmap.greysRUnderBlack).vmax
            (applyLayerStyle (resolveLayType la p)
              [basename (resolveLayType la p)] Cmap.greysRUnderBlack).cmap
            (applyLayerStyle (resolveLayType la p)
              [basename (resolveLayType la p)] Cmap.greysRUnderBlack).title
            arrs 0 with
        | error e =>
          rw [hr] at hres
          simp at hres
        | ok subs =>
          rw [hr] at hres
          have hfig : fig = ⟨1, resolveNBands na ds,
              (applyLayerStyle (resolveLayType la p)
                [basename (resolveLayType la p)] Cmap.greysRUnderBlack).wspace,
              subs, 0, resolveNBands na ds / 2⟩ := by
            have h1 := congrArg Prod.fst hres
            simp only at h1
            exact (Except.ok.inj h1).symm
          have hmem : sp ∈ subs := by
            rw [hfig] at hsp
            exact hsp
          have := renderSubplots_extent (resolveLayType la p)
            (computeExtent ds.transform ds.rasterXSize ds.rasterYSize)
            _ _ _ _ arrs 0 subs hr sp hmem
          rw [this, computeExtent]
    · rw [if_neg hlt] at hres
      simp at hres

/-- Claim C4, witness: the single-band "defo" call on `dsOne` succeeds and
its subplot's extent is `[2, 2 + 4*3, 7 + 5*(-1), 7]` as computed from the
transform `(2, 3, 0, 7, 0, -1)` and size 4 by 5. -/
theorem extent_formula_witness :
    (⟨[[((0 : ℚ), false)]], Cmap.coolwarm, none, none,
      computeExtent dsOne.transform dsOne.rasterXSize dsOne.rasterYSize,
      ColorbarSpec.plain, "defo"⟩ : Subplot).extent =
      [(2 : ℚ), 2 + ((4 : ℕ) : ℚ) * 3, 7 + ((5 : ℕ) : ℚ) * (-1), 7] :=
  extent_formula dsOne "w4" (some "defo") none none
    ⟨1, 1, none, [⟨[[((0 : ℚ), false)]], Cmap.coolwarm, none, none,
      computeExtent dsOne.transform dsOne.rasterXSize dsOne.rasterYSize,
      ColorbarSpec.plain, "defo"⟩], 0, 0⟩ []
    ⟨[[((0 : ℚ), false)]], Cmap.coolwarm, none, none,
      computeExtent dsOne.transform dsOne.rasterXSize dsOne.rasterYSize,
      ColorbarSpec.plain, "defo"⟩
    rfl rfl rfl (List.mem_singleton.mpr rfl)

/-- Claim C6, counterexample: with the layer-type argument omitted, the label
used for dispatch is the full dirname "a/b/water", not its last segment
"water" — so the "starts with water" rule does not apply and the default
warm/cool colormap is used instead of the water style. -/
theorem derived_lay_type_cex :
    resolveLayType none "a/b/water/x.tif" = "a/b/water" ∧
    pyStartsWith (resolveLayType none "a/b/water/x.tif") "water" = false ∧
    (applyLayerStyle (resolveLayType none "a/b/water/x.tif")
      [basename (resolveLayType none "a/b/water/x.tif")]
      Cmap.greysRUnderBlack).cmap = Cmap.coolwarm ∧
    Cmap.coolwarm ≠ Cmap.greysName ∧
    (figOut (plot_layer dsOne "a/b/water/x.tif" none none none)).map
      (fun f => f.subplots.map Subplot.cmap) = some [Cmap.coolwarm] := by
  refine ⟨by decide, by decide, by decide, by decide, rfl⟩

/-- Claim C6, amended: an omitted (or falsy) layer-type argument resolves to
the full dirname of the path — the call behaves exactly as if that dirname
had been passed; only the subplot title uses its last segment. -/
theorem derived_lay_type_dirname (ds : Dataset) (p : String)
    (c : Option Cmap) (nb : Option Nat) :
    resolveLayType none p = dirname p ∧
    plot_layer ds p none c nb = plot_layer ds p (some (dirname p)) c nb := by
  constructor
  · rfl
  · have h : resolveLayType (some (dirname p)) p = dirname p := by
      simp [resolveLayType, ite_self]
    have h0 : resolveLayType none p = dirname p := rfl
    rw [plot_layer_def, plot_layer_def, h, h0]

/-- Claim C9: the caller-supplied `cmap` argument has no effect — it is
overwritten with the grayscale default before any use, so any two calls that
differ only in `cmap` produce identical results (figure and diagnostics). -/
theorem cmap_argument_ignored (ds : Dataset) (p : String) (la : Option String)
    (c₁ c₂ : Option Cmap) (na : Option Nat) :
    plot_layer ds p la c₁ na = plot_layer ds p la c₂ na := rfl

/-- Claim C10: passing 0 as the band-count argument behaves exactly as
omitting it — Python's falsy test replaces it with the dataset's band
count. -/
theorem zero_band_arg_as_omitted (ds : Dataset) (p : String)
    (la : Option String) (c : Option Cmap) :
    plot_layer ds p la c (some 0) = plot_layer ds p la c none ∧
    resolveNBands (some 0) ds = ds.bands.length :=
  ⟨rfl, rfl⟩

end RaiderPlot
